import Mathlib

/-
Verification of the lilwil test-execution core against its specification.

The definitions below are a shallow embedding of the C++ sources:
  - `Value`, `view_as`, `no_conversion`  from  include/lilwil/Value.h and source/Source.cc
  - `Ctx` (BaseContext/Context), `handle`, `capture`, `require`, `equal`, `count`
    from  include/lilwil/Context.h
  - `TestAdapter`, `ValueAdapter`, `wrong_number_string` from the test-support header
    (TestAdapter::operator()) and source/Source.cc
  - the suite registry (`add_test`, `find_test`, `set_value`) from source/Source.cc

Machine conventions: C++ `Integer` (std::ptrdiff_t) and `int` are modelled as `Int`
(the modelled operations perform no arithmetic on them, only copies and one narrowing
conversion which is modelled with an explicit wrap); `Real` (double) is modelled as
`Float`, which is the same IEEE binary64 type (the modelled operations only copy
doubles, never compute with them); C++ exceptions are modelled with `Except`.
-/

namespace Lilwil

/-! ## Value and conversion (include/lilwil/Value.h, source/Source.cc) -/

/-- Payload of a type-erased `Value` (`std::any val`). One constructor per stored C++
type that the claims exercise; `other` stands for any further stored type, identified
by its (demangled) type name, exactly the information `no_conversion` extracts. -/
inductive Payload : Type
  | boolean : Bool → Payload
  | integer : Int → Payload
  | intC : Int → Payload
  | real : Float → Payload
  | str : String → Payload
  | strView : String → Payload
  | other : String → Payload

/-- Demangled type name of a stored payload, as computed by `default_type_name`
in Source.cc (typeid(std::string) → "std::string", typeid(int) → "int",
typeid(long) → "long", typeid(double) → "double", typeid(bool) → "bool";
`lilwil::Integer` is `std::ptrdiff_t`, i.e. `long` on this platform). -/
def Payload.typeName : Payload → String
  | .boolean _ => "bool"
  | .integer _ => "long"
  | .intC _ => "int"
  | .real _ => "double"
  | .str _ => "std::string"
  | .strView _ => "std::string_view"
  | .other n => n

/-- One hexadecimal digit, uppercase, as produced by `std::uppercase << std::hex`. -/
def hexDigit (n : Nat) : Char :=
  if n < 10 then Char.ofNat (48 + n) else Char.ofNat (55 + n)

/-- Escape of one character from `ToString<std::string>::operator()` in Source.cc:
printable characters (`std::isprint`, i.e. 0x20..0x7E in the C locale) pass through,
anything else becomes an uppercase two-digit hex escape. The C++ code works on
bytes, so the hex value is the code modulo 256. -/
def escapeChar (c : Char) : String :=
  if 32 ≤ c.toNat ∧ c.toNat ≤ 126 then String.singleton c
  else
    let code := c.toNat % 256
    String.mk [Char.ofNat 92, Char.ofNat 120, hexDigit (code / 16), hexDigit (code % 16)]

/-- String escape from `ToString<std::string>::operator()` in Source.cc. -/
def escapeStr (s : String) : String :=
  String.join (s.data.map escapeChar)

/-- Rendering bound at `Value` construction (the `conv` function pointer): the
`ToString` specialization for the stored type. Integral types render via
`std::to_string` (Glue.h default `ToString`), strings render through the escape in
Source.cc, any other type renders as `"<" + type_name + ">"` (Glue.h default). -/
def Payload.render : Payload → String
  | .boolean b => if b then "1" else "0"
  | .integer n => toString n
  | .intC n => toString n
  | .real _ => "<double>"
  | .str s => escapeStr s
  | .strView s => escapeStr s
  | .other n => "<" ++ n ++ ">"

/-- `lilwil::Value`: `std::any val` is empty or holds one payload. -/
structure Value : Type where
  payload : Option Payload

/-- `Value::has_value`. -/
def Value.has_value (v : Value) : Bool := v.payload.isSome

/-- `Value::to_string`: empty renders as `""`, else the bound formatter runs. -/
def Value.to_string (v : Value) : String :=
  match v.payload with
  | none => ""
  | some p => p.render

/-- Constructors mirroring `Value(T t)` for each stored type. -/
def Value.ofBool (b : Bool) : Value := ⟨some (.boolean b)⟩

def Value.ofInteger (n : Int) : Value := ⟨some (.integer n)⟩

def Value.ofIntC (n : Int) : Value := ⟨some (.intC n)⟩

def Value.ofReal (r : Float) : Value := ⟨some (.real r)⟩

def Value.ofString (s : String) : Value := ⟨some (.str s)⟩

def Value.ofStrView (s : String) : Value := ⟨some (.strView s)⟩

def Value.empty : Value := ⟨none⟩

/-- The `std::invalid_argument` built by `Value::no_conversion` (Source.cc):
only its message is observable. -/
structure ConvError : Type where
  message : String

/-- `Value::no_conversion(dest)` from Source.cc: a message naming the rendered value
(when non-empty), the stored type name and the destination type name. -/
def Value.no_conversion (v : Value) (destName : String) : ConvError :=
  match v.payload with
  | some p =>
    ⟨"lilwil: no conversion from Value" ++
      (if v.to_string = "" then "" else " " ++ v.to_string) ++
      " (typeid '" ++ p.typeName ++ "') to typeid '" ++ destName ++ "'"⟩
  | none =>
    ⟨"lilwil: no conversion from empty Value to typeid '" ++ destName ++ "'"⟩

/-- Narrowing conversion from `Integer` (long) to `int`: modular wrap into
[-2^31, 2^31), the behavior of the implicit conversion in `ViewAs`. -/
def wrap32 (n : Int) : Int := (n + 2 ^ 31) % 2 ^ 32 - 2 ^ 31

/-- `Value::view_as<bool>`: empty default-constructs `false`; an exact `bool` hit
copies out; otherwise `ViewAs<bool>` accepts a stored `Integer` (contextually
converted, nonzero is true) and anything else throws `no_conversion`. -/
def Value.view_as_bool : Value → Except ConvError Bool
  | ⟨none⟩ => .ok false
  | ⟨some (.boolean b)⟩ => .ok b
  | ⟨some (.integer n)⟩ => .ok (n != 0)
  | v => .error (v.no_conversion ("bool"))

/-- `Value::view_as<Integer>` (`Integer` = long): empty default-constructs `0`;
an exact `Integer` hit copies out; otherwise `ViewAs<T, integral>` accepts only a
stored `Integer` (already handled), so everything else throws `no_conversion`. -/
def Value.view_as_integer : Value → Except ConvError Int
  | ⟨none⟩ => .ok 0
  | ⟨some (.integer n)⟩ => .ok n
  | v => .error (v.no_conversion ("long"))

/-- `Value::view_as<int>`: empty default-constructs `0`; an exact `int` hit copies
out; otherwise `ViewAs<int, integral>` accepts a stored `Integer` (narrowed to
`int`) and anything else throws `no_conversion`. -/
def Value.view_as_int : Value → Except ConvError Int
  | ⟨none⟩ => .ok 0
  | ⟨some (.intC n)⟩ => .ok n
  | ⟨some (.integer n)⟩ => .ok (wrap32 n)
  | v => .error (v.no_conversion ("int"))

/-- `Value::view_as<Real>` (`Real` = double): empty default-constructs `0.0`; an
exact `Real` hit copies out; otherwise `ViewAs<T, floating>` accepts a stored
`Real` (already handled) or a stored `Integer` (converted to double) and anything
else throws `no_conversion`. -/
def Value.view_as_real : Value → Except ConvError Float
  | ⟨none⟩ => .ok 0.0
  | ⟨some (.real r)⟩ => .ok r
  | ⟨some (.integer n)⟩ => .ok (Float.ofInt n)
  | v => .error (v.no_conversion ("double"))

/-- `Value::view_as<String>` (`String` = std::string): empty default-constructs
`""`; an exact `std::string` hit copies out; otherwise `ViewAs<String>` accepts a
stored `std::string_view` and anything else throws `no_conversion`. -/
def Value.view_as_string : Value → Except ConvError String
  | ⟨none⟩ => .ok ""
  | ⟨some (.str s)⟩ => .ok s
  | ⟨some (.strView s)⟩ => .ok s
  | v => .error (v.no_conversion ("std::string"))

/-! ## Context and event dispatch (include/lilwil/Context.h) -/

/-- Event indices (`inline constexpr Event ...` in Context.h). -/
def Failure : Nat := 0

def Success : Nat := 1

def Exception : Nat := 2

def Timing : Nat := 3

def Skipped : Nat := 4

/-- A log entry (`lilwil::KeyValue` from Glue.h): a key and an unrendered `Value`. -/
structure KeyValue : Type where
  key : String
  value : Value

/-- A finalized entry (`lilwil::KeyString`): key and rendered text, as passed to a
`Handler` by `BaseContext::handle`. -/
structure KeyString : Type where
  key : String
  value : String
deriving DecidableEq

/-- One observed handler invocation `handlers[e.index](e.index, scopes, strings)`:
the event index, the scope stack and the finalized entries it received. -/
structure Emitted : Type where
  event : Nat
  scopes : List String
  entries : List KeyString
deriving DecidableEq

/-- State of a `lilwil::Context` (Base + BaseContext), observationally:
`handlers` records for each event index whether a (non-null) handler is registered
(a handler's return value is discarded by `handle`, so presence is all that matters
to the core); `emitted` is the trace of handler invocations made so far;
`counters` is the possibly-null pointer to the event counter array; `logs` and
`reservedLogs` are the accumulated key/value entries and the pinned prefix size. -/
structure Ctx : Type where
  handlers : List Bool
  scopes : List String
  counters : Option (List Nat)
  logs : List KeyValue
  reservedLogs : Nat
  emitted : List Emitted

/-- Whether a handler is registered for event `e`:
`e.index < handlers.size() && handlers[e.index]` in `BaseContext::handle`. -/
def Ctx.registered (c : Ctx) (e : Nat) : Bool :=
  decide (e < c.handlers.length) && c.handlers.getD e false

/-- Finalization `strings.emplace_back(log.key, log.value.to_string())`. -/
def finalize (kvs : List KeyValue) : List KeyString :=
  kvs.map fun kv => ⟨kv.key, kv.value.to_string⟩

/-- Counter update in `BaseContext::handle`:
`if (counters && e.index < counters->size()) (*counters)[e.index].fetch_add(1)`. -/
def Ctx.bumpCounter (c : Ctx) (e : Nat) : Ctx :=
  match c.counters with
  | some arr => if e < arr.length then { c with counters := some (arr.set e (arr.getD e 0 + 1)) } else c
  | none => c

/-- `BaseContext::handle(e, refs, ts...)` (Context.h lines 123-135): when a handler is
registered for `e`, the `ts` entries are appended to the log, every log entry and
every `refs` entry is finalized and the handler is called; then the counter for `e`
is incremented when a counter array is attached and `e` is in range; finally the log
is truncated back to the reserved prefix. `ts` is the list of entries the variadic
`AddKeyValue` calls would append. -/
def Ctx.handle (c : Ctx) (e : Nat) (refs : List KeyValue) (ts : List KeyValue) : Ctx :=
  let c1 :=
    if c.registered e then
      { c with
        logs := c.logs ++ ts,
        emitted := c.emitted ++ [⟨e, c.scopes, finalize (c.logs ++ ts) ++ finalize refs⟩] }
    else c
  let c2 := c1.bumpCounter e
  { c2 with logs := c2.logs.take c2.reservedLogs }

/-- `Base::count(e)` (Context.h lines 69-72): `-1` when no counter array is attached,
else the unchecked read `(*counters)[e.index]`. The source performs no bounds check;
an out-of-range index is an out-of-bounds `std::vector` read, i.e. undefined
behavior, modelled here as `none` (no defined result). -/
def Ctx.count (c : Ctx) (e : Nat) : Option Int :=
  match c.counters with
  | none => some (-1)
  | some arr => (arr[e]?).map fun n => (n : Int)

/-- `BaseContext::info(k, v)` / the variadic `operator()`: append entries to the log. -/
def Ctx.addLogs (c : Ctx) (kvs : List KeyValue) : Ctx :=
  { c with logs := c.logs ++ kvs }

/-- `BaseContext::capture(ts...)` (Context.h lines 103-110): append the entries, then
`std::rotate` the block `[reserved_logs, n)` with `[n, end)`, which inserts the new
entries at position `reserved_logs`, and grow the reserved prefix by their number. -/
def Ctx.capture (c : Ctx) (ts : List KeyValue) : Ctx :=
  { c with
    logs := c.logs.take c.reservedLogs ++ ts ++ c.logs.drop c.reservedLogs,
    reservedLogs := c.reservedLogs + ts.length }

/-- `Context::require(ok, refs)` (Context.h lines 200-205): dispatch `Success` or
`Failure` with the extra entry `glue("value", ok)`. -/
def Ctx.require (c : Ctx) (ok : Bool) (refs : List KeyValue) : Ctx × Bool :=
  (c.handle (if ok then Success else Failure) refs [⟨"value", Value.ofBool ok⟩], ok)

/-- `Context::require_args(ok, refs, ts...)` (Context.h lines 310-314). -/
def Ctx.require_args (c : Ctx) (ok : Bool) (refs : List KeyValue) (ts : List KeyValue) : Ctx × Bool :=
  (c.handle (if ok then Success else Failure) refs ts, ok)

/-- `AddKeyValue<ComparisonGlue>` (Glue.h lines 154-160) applied to
`comparison_glue(l, r, op)` for `int` operands: three separate entries for the left
operand, the right operand and the operator tag. -/
def comparison_glue_int (l r : Int) (op : String) : List KeyValue :=
  [⟨"__lhs", Value.ofIntC l⟩, ⟨"__rhs", Value.ofIntC r⟩, ⟨"__op", Value.ofStrView op⟩]

/-- `Context::equal(l, r, refs)` (Context.h lines 209-211) at `int` operands:
`require_args(l == r, refs, comparison_glue(l, r, "=="))`. -/
def Ctx.equalInt (c : Ctx) (l r : Int) (refs : List KeyValue) : Ctx × Bool :=
  c.require_args (l == r) refs (comparison_glue_int l r ("=="))

/-- Run a sequence of `require` calls, one per boolean in the list. -/
def Ctx.runRequires (c : Ctx) (bs : List Bool) : Ctx :=
  bs.foldl (fun c b => (c.require b []).1) c

/-- Log/reserved-prefix well-formedness: the reserved prefix never exceeds the log.
It holds for a fresh context (`0 ≤ 0`) and every operation preserves it. -/
def Ctx.wf (c : Ctx) : Prop := c.reservedLogs ≤ c.logs.length

/-! ## Test adapters and the suite registry (test-support header, source/Source.cc) -/

/-- A C++ exception escaping a test body, as the adapter's catch clauses classify it:
`lilwil::Skip` (a `std::runtime_error` subclass, caught first), `lilwil::ClientError`
(a `std::exception` subclass, caught before the generic clause), any other
`std::exception` (whose `what()` message is observable), or anything else. A `Skip`
also carries a `SourceLocation`; the bodies modelled here throw it with the default
empty location, as the adapter's own arity check does. -/
inductive Exc : Type
  | skip : String → Exc
  | clientError : String → Exc
  | stdError : String → Exc
  | unknown : Exc

/-- `wrong_number_string(r, e)` from Source.cc lines 8-12. -/
def wrong_number_string (r e : Nat) : String :=
  "wrong number of arguments (expected " ++ toString r ++ ", got " ++ toString e ++ ")"

/-- `lilwil::Comment` (Glue.h): a comment string and a source location. -/
structure Comment : Type where
  comment : String
  file : String
  line : Int

/-- `AddKeyValue<Comment>` (Glue.h): a non-empty comment adds a `__comment` entry,
then a non-empty file adds `__file` and `__line` entries. -/
def Comment.entries (c : Comment) : List KeyValue :=
  (if c.comment = "" then [] else [⟨"__comment", Value.ofStrView c.comment⟩]) ++
  (if c.file = "" then []
   else [⟨"__file", Value.ofStrView c.file⟩, ⟨"__line", Value.ofInteger c.line⟩])

/-- `Skip::as_comment()` for a `Skip` with the default (empty) source location, as
thrown by the adapter's arity check: just the message, no file/line. -/
def skipComment (msg : String) : Comment := ⟨msg, "", 0⟩

/-- Modelled from the spec: this is `BaseContext::handle(e, comment, keypairs,
ts...)`, the overload the test adapter calls; the bodies of `emit_event` and
`update_counter` that it delegates to are declared in the headers but missing under
src/. Per spec section 4.4 — and identically to the in-src `BaseContext::handle`
overload embedded above as `Ctx.handle` — the comment's entries and `ts` join the
log when a handler is registered, the finalized log and `refs` go to the handler,
the counter is incremented when attached and in range, and the log is truncated to
the reserved prefix. -/
def Ctx.handleC (c : Ctx) (e : Nat) (com : Comment) (refs ts : List KeyValue) : Ctx :=
  c.handle e refs (com.entries ++ ts)

/-- `TestAdapter<F>::operator()(ct, args)`: the declared arity is
`Sig::size` (the parameters after the `Context` one) and the body's behavior is a
function from the context to a final context and an outcome. Faithful to the source:
an argument-count mismatch throws `Skip(wrong_number_string(Sig::size, args.size()))`
before the body runs; a `Skip` is caught, `handle(Skipped, skip.as_comment(), {})`
runs, and the skip is rethrown; a `ClientError` is rethrown untouched; another
`std::exception` gets `ct.info("reason", e.what())` then `handle(Exception, {}, {})`
and is rethrown; anything else gets `handle(Exception, {}, {})` and is rethrown. -/
def TestAdapter.run (arity : Nat) (body : Ctx → Ctx × Except Exc Value)
    (ct : Ctx) (args : List Value) : Ctx × Except Exc Value :=
  if args.length ≠ arity then
    let msg := wrong_number_string arity args.length
    ((ct.handleC Skipped (skipComment msg) [] []), .error (.skip msg))
  else
    match body ct with
    | (ct1, .ok v) => (ct1, .ok v)
    | (ct1, .error (.skip m)) => ((ct1.handleC Skipped (skipComment m) [] []), .error (.skip m))
    | (ct1, .error (.clientError m)) => (ct1, .error (.clientError m))
    | (ct1, .error (.stdError m)) =>
      (((ct1.addLogs [⟨"reason", Value.ofStrView m⟩]).handleC Exception ⟨"", "", 0⟩ [] []),
        .error (.stdError m))
    | (ct1, .error .unknown) => ((ct1.handleC Exception ⟨"", "", 0⟩ [] []), .error .unknown)

/-- The type-erased function stored in a `TestCase`: either a `ValueAdapter`
(a fixed stored `Value`) or a `TestAdapter` around a body of the given arity. -/
inductive TestFun : Type
  | value : Value → TestFun
  | adapted : Nat → (Ctx → Ctx × Except Exc Value) → TestFun

/-- Invocation of a stored test function. `ValueAdapter::operator()(Context &,
ArgPack const &) const {return value;}` ignores both arguments and returns the
stored value; an adapted test runs `TestAdapter<F>::operator()`. -/
def TestFun.invoke : TestFun → Ctx → List Value → Ctx × Except Exc Value
  | .value v, ct, _ => (ct, .ok v)
  | .adapted n body, ct, args => TestAdapter.run n body ct args

/-- `lilwil::TestCase` (fields used by the registry operations; the parameter packs
play no role in the registry claims). -/
structure TestCase : Type where
  name : String
  comment : String
  function : TestFun

/-- The suite (`Suite` = `std::vector<TestCase>`). -/
abbrev Suite : Type := List TestCase

/-- `add_test` (Source.cc): `cases.emplace_back(t)`. -/
def add_test (s : Suite) (t : TestCase) : Suite := s ++ [t]

/-- `lilwil_find_test` (Source.cc lines 576-589): the first index whose name
matches, scanning in registration order (`for i = 0; i != cases.size(); ++i`);
key-not-found otherwise. -/
def find_test (s : Suite) (name : String) : Option Nat :=
  match s with
  | [] => none
  | c :: cs => if c.name = name then some 0 else (find_test cs name).map (· + 1)

/-- `set_value(name, v, comment)` (Source.cc lines 168-176): `std::remove_if` all
cases with the given name and erase them (a stable filter), record *whether*
anything was erased (`it != cases.end()`), append a fresh `ValueAdapter` case, and
return that boolean. -/
def set_value (s : Suite) (name : String) (v : Value) (comment : String) : Bool × Suite :=
  let kept := List.filter (fun c => c.name ≠ name) s
  let erased := kept.length ≠ s.length
  (erased, kept ++ [⟨name, comment, .value v⟩])

/-- Number of suite entries carrying a given name (the count that the claimed
`removeAll` report would have to return). -/
def countNamed (s : Suite) (name : String) : Nat :=
  (List.filter (fun c => c.name = name) s).length

/-- A fresh context whose handler vector registers handlers for `Failure` and
`Success` (indices 0 and 1): no counters, empty scope, empty log. -/
def ctxFS : Ctx := ⟨[true, true], [], none, [], 0, []⟩

/-! ## Helper lemmas -/

@[simp]
theorem Ctx.bumpCounter_emitted (c : Ctx) (e : Nat) : (c.bumpCounter e).emitted = c.emitted := by
  unfold Ctx.bumpCounter
  cases c.counters with
  | none => rfl
  | some arr => by_cases h : e < arr.length <;> simp [h]

@[simp]
theorem Ctx.bumpCounter_logs (c : Ctx) (e : Nat) : (c.bumpCounter e).logs = c.logs := by
  unfold Ctx.bumpCounter
  cases c.counters with
  | none => rfl
  | some arr => by_cases h : e < arr.length <;> simp [h]

@[simp]
theorem Ctx.bumpCounter_reserved (c : Ctx) (e : Nat) :
    (c.bumpCounter e).reservedLogs = c.reservedLogs := by
  unfold Ctx.bumpCounter
  cases c.counters with
  | none => rfl
  | some arr => by_cases h : e < arr.length <;> simp [h]

@[simp]
theorem Ctx.bumpCounter_handlers (c : Ctx) (e : Nat) :
    (c.bumpCounter e).handlers = c.handlers := by
  unfold Ctx.bumpCounter
  cases c.counters with
  | none => rfl
  | some arr => by_cases h : e < arr.length <;> simp [h]

@[simp]
theorem Ctx.bumpCounter_scopes (c : Ctx) (e : Nat) : (c.bumpCounter e).scopes = c.scopes := by
  unfold Ctx.bumpCounter
  cases c.counters with
  | none => rfl
  | some arr => by_cases h : e < arr.length <;> simp [h]

theorem Ctx.bumpCounter_counters (c : Ctx) (e : Nat) (arr : List Nat)
    (h : c.counters = some arr) (he : e < arr.length) :
    (c.bumpCounter e).counters = some (arr.set e (arr.getD e 0 + 1)) := by
  unfold Ctx.bumpCounter
  simp [h, he]

theorem Ctx.handle_counters (c : Ctx) (e : Nat) (refs ts : List KeyValue) (arr : List Nat)
    (h : c.counters = some arr) (he : e < arr.length) :
    (c.handle e refs ts).counters = some (arr.set e (arr.getD e 0 + 1)) := by
  unfold Ctx.handle
  by_cases hr : c.registered e = true
  · simp only [hr, if_true]
    exact Ctx.bumpCounter_counters _ e arr h he
  · simp only [hr, if_false]
    exact Ctx.bumpCounter_counters _ e arr h he

theorem Ctx.handle_emitted_of_registered (c : Ctx) (e : Nat) (refs ts : List KeyValue)
    (hr : c.registered e = true) :
    (c.handle e refs ts).emitted =
      c.emitted ++ [⟨e, c.scopes, finalize (c.logs ++ ts) ++ finalize refs⟩] := by
  unfold Ctx.handle
  simp [hr]

theorem Ctx.handle_logs_of_wf (c : Ctx) (e : Nat) (refs ts : List KeyValue) (hwf : c.wf) :
    (c.handle e refs ts).logs = c.logs.take c.reservedLogs := by
  unfold Ctx.handle
  by_cases hr : c.registered e = true <;>
    simp [hr, List.take_append_of_le_length hwf]

theorem Ctx.handle_reserved (c : Ctx) (e : Nat) (refs ts : List KeyValue) :
    (c.handle e refs ts).reservedLogs = c.reservedLogs := by
  unfold Ctx.handle
  by_cases hr : c.registered e = true <;> simp [hr]

/-! ## Claim theorems -/

/-- C3: for every built-in payload type T in {bool, Integer, Real, String} and every
representable value x of type T, constructing Value(x) and then calling view_as of T
returns a value equal to x (the exact-type `target` hit in `Value::view_as` copies
the stored payload out unchanged). -/
theorem c3_roundtrip_conversion :
    (∀ b : Bool, (Value.ofBool b).view_as_bool = .ok b) ∧
    (∀ n : Int, (Value.ofInteger n).view_as_integer = .ok n) ∧
    (∀ r : Float, (Value.ofReal r).view_as_real = .ok r) ∧
    (∀ s : String, (Value.ofString s).view_as_string = .ok s) :=
  ⟨fun _ => rfl, fun _ => rfl, fun _ => rfl, fun _ => rfl⟩

/-- C5 counterexample: a context with an attached one-element counter array, queried
at event index 1, does not yield the claimed `-1` sentinel: `Base::count` performs
no bounds check, so the read has no defined result (an out-of-bounds
`std::vector::operator[]`), modelled as `none`. -/
theorem c5_count_out_of_range_counterexample :
    Ctx.count ⟨[], [], some [0], [], 0, []⟩ 1 ≠ some (-1) := by
  decide

/-- C5 (amended): `count(e)` returns `-1` exactly when no counter array is attached;
when one is attached it returns the counter at `e`'s index if that index is in
range, and otherwise performs an unchecked out-of-bounds read (undefined behavior,
no defined result) instead of returning `-1`. -/
theorem c5_count_amended (c : Ctx) (e : Nat) :
    (c.counters = none → c.count e = some (-1)) ∧
    (∀ arr : List Nat, c.counters = some arr → e < arr.length →
      c.count e = some ((arr.getD e 0 : Nat) : Int)) ∧
    (∀ arr : List Nat, c.counters = some arr → arr.length ≤ e → c.count e = none) := by
  refine ⟨fun h => by simp [Ctx.count, h], fun arr h hlt => ?_, fun arr h hge => ?_⟩
  · simp [Ctx.count, h, List.getElem?_eq_getElem hlt, List.getD_eq_getElem?_getD,
      List.getElem?_eq_getElem hlt]
  · simp [Ctx.count, h, List.getElem?_eq_none hge]

/-- C5 witness: the amended statement evaluated at concrete contexts — a detached
counter array yields `-1`, an attached in-range index yields the counter value, an
attached out-of-range index yields no defined result. -/
theorem c5_count_amended_witness :
    Ctx.count ⟨[], [], none, [], 0, []⟩ 0 = some (-1) ∧
    Ctx.count ⟨[], [], some [7, 3], [], 0, []⟩ 1 = some 3 ∧
    Ctx.count ⟨[], [], some [7, 3], [], 0, []⟩ 4 = none := by
  refine ⟨(c5_count_amended _ 0).1 rfl, ?_, ?_⟩
  · have h := (c5_count_amended ⟨[], [], some [7, 3], [], 0, []⟩ 1).2.1 [7, 3] rfl (by decide)
    simpa using h
  · exact (c5_count_amended ⟨[], [], some [7, 3], [], 0, []⟩ 4).2.2 [7, 3] rfl (by decide)

/-- C6: viewing a Value holding a std::string as int fails with the typed
`no_conversion` error (a `std::invalid_argument`) whose message names both the
stored type and the requested type, never returning 0 or any default; more
generally `view_as<int>` between unrelated stored/requested types (anything other
than a stored `int` or `Integer`) always fails with that error, the only
silent-default case being the empty Value, which default-constructs 0. -/
theorem c6_conversion_rejection :
    ((Value.ofString ("a")).view_as_int =
      .error ⟨"lilwil: no conversion from Value a (typeid 'std::string') to typeid 'int'"⟩) ∧
    (∀ p : Payload, (∀ n, p ≠ .intC n) → (∀ n, p ≠ .integer n) →
      (Value.mk (some p)).view_as_int = .error ((Value.mk (some p)).no_conversion ("int")) ∧
      ∀ n : Int, (Value.mk (some p)).view_as_int ≠ .ok n) ∧
    (∀ p : Payload, ∃ pre,
      ((Value.mk (some p)).no_conversion ("int")).message =
        pre ++ " (typeid '" ++ p.typeName ++ "') to typeid '" ++ ("int") ++ "'") ∧
    Value.empty.view_as_int = .ok 0 := by
  refine ⟨rfl, fun p h1 h2 => ?_, fun p => ⟨_, rfl⟩, rfl⟩
  cases p with
  | intC n => exact absurd rfl (h1 n)
  | integer n => exact absurd rfl (h2 n)
  | boolean b => exact ⟨rfl, fun n h => by cases h⟩
  | real r => exact ⟨rfl, fun n h => by cases h⟩
  | str s => exact ⟨rfl, fun n h => by cases h⟩
  | strView s => exact ⟨rfl, fun n h => by cases h⟩
  | other s => exact ⟨rfl, fun n h => by cases h⟩

/-- C6 witness: the general rejection applied to a stored `bool` payload — it fails
with the `no_conversion` error, and the message decomposition names both the stored
type name and `int`. -/
theorem c6_conversion_rejection_witness :
    (Value.mk (some (.boolean true))).view_as_int =
      .error ((Value.mk (some (.boolean true))).no_conversion ("int")) ∧
    ((Value.mk (some (.boolean true))).no_conversion ("int")).message =
      "lilwil: no conversion from Value 1 (typeid 'bool') to typeid 'int'" := by
  refine ⟨(c6_conversion_rejection.2.1 (.boolean true) ?_ ?_).1, by decide⟩
  · intro n h; cases h
  · intro n h; cases h

/-- C10: a stored-value test (the `ValueAdapter` installed by `add_value`) ignores
its argument list entirely — invoked with an ArgPack of any length it returns the
stored Value unchanged and the context untouched (no arity check, no event, no log
entry, no exception) — whereas an ordinary adapted test with a mismatched argument
count fails with the arity `Skip`. -/
theorem c10_value_adapter_ignores_args :
    (∀ (v : Value) (ct : Ctx) (args : List Value),
      TestFun.invoke (.value v) ct args = (ct, .ok v)) ∧
    (∀ (n : Nat) (body : Ctx → Ctx × Except Exc Value) (ct : Ctx) (args : List Value),
      args.length ≠ n →
      TestFun.invoke (.adapted n body) ct args =
        ((ct.handleC Skipped (skipComment (wrong_number_string n args.length)) [] []),
          .error (.skip (wrong_number_string n args.length)))) := by
  refine ⟨fun v ct args => rfl, fun n body ct args h => ?_⟩
  simp [TestFun.invoke, TestAdapter.run, h]

/-- C10 witness: a stored value invoked with a two-element ArgPack comes back
unchanged with the context untouched, while an adapted zero-parameter test invoked
with one argument skips. -/
theorem c10_value_adapter_ignores_args_witness :
    TestFun.invoke (.value (Value.ofInteger 3)) ⟨[], [], none, [], 0, []⟩
        [Value.ofInteger 1, Value.ofInteger 2] =
      (⟨[], [], none, [], 0, []⟩, .ok (Value.ofInteger 3)) ∧
    (TestFun.invoke (.adapted 0 (fun c => (c, .ok Value.empty))) ⟨[], [], none, [], 0, []⟩
        [Value.ofInteger 1]).2 =
      .error (.skip ("wrong number of arguments (expected 0, got 1)")) := by
  constructor
  · exact c10_value_adapter_ignores_args.1 (Value.ofInteger 3) ⟨[], [], none, [], 0, []⟩
      [Value.ofInteger 1, Value.ofInteger 2]
  · have h := c10_value_adapter_ignores_args.2 0 (fun c => (c, .ok Value.empty))
      ⟨[], [], none, [], 0, []⟩ [Value.ofInteger 1] (by decide)
    rw [h]
    rfl

/-- C7 counterexample: with handlers registered for Failure and Success, `equal(5, 6)`
on a fresh context dispatches one Failure event whose finalized entries are exactly
the three comparison entries — there is no boolean entry keyed `value` among them,
contrary to the claim (the `value` entry is produced by `require`, which `equal`
does not call). -/
theorem c7_no_value_entry_counterexample :
    ((Ctx.equalInt ctxFS 5 6 []).1.emitted =
      [⟨Failure, [], [⟨"__lhs", "5"⟩, ⟨"__rhs", "6"⟩, ⟨"__op", "=="⟩]⟩]) ∧
    ((Ctx.equalInt ctxFS 5 6 []).1.emitted.all fun ev =>
      ev.entries.all fun ks => ks.key != "value") = true := by
  decide

/-- C7 (amended): with a Handler registered for Failure and Success, `ctx.equal(5, 6)`
dispatches exactly one Failure event whose finalized entries are three separate
key/value entries for the left operand (5), the right operand (6) and the symbolic
operator tag `==` — never concatenated into one string — and `ctx.equal(5, 5)`
dispatches one Success event with the same three comparison entries; the boolean
`value` entry belongs to `require`, not to `equal`. -/
theorem c7_comparison_logging_amended :
    ((Ctx.equalInt ctxFS 5 6 []).1.emitted =
      [⟨Failure, [], [⟨"__lhs", "5"⟩, ⟨"__rhs", "6"⟩, ⟨"__op", "=="⟩]⟩] ∧
      (Ctx.equalInt ctxFS 5 6 []).2 = false) ∧
    ((Ctx.equalInt ctxFS 5 5 []).1.emitted =
      [⟨Success, [], [⟨"__lhs", "5"⟩, ⟨"__rhs", "5"⟩, ⟨"__op", "=="⟩]⟩] ∧
      (Ctx.equalInt ctxFS 5 5 []).2 = true) ∧
    (∀ b : Bool, ∀ refs : List KeyValue,
      (Ctx.require ctxFS b refs).1.emitted =
        [⟨if b then Success else Failure, [],
          finalize ([⟨"value", Value.ofBool b⟩]) ++ finalize refs⟩]) := by
  refine ⟨by decide, by decide, fun b refs => ?_⟩
  cases b
  · have h := Ctx.handle_emitted_of_registered ctxFS Failure refs
      [⟨"value", Value.ofBool false⟩] (by decide)
    simpa [Ctx.require, ctxFS, Failure] using h
  · have h := Ctx.handle_emitted_of_registered ctxFS Success refs
      [⟨"value", Value.ofBool true⟩] (by decide)
    simpa [Ctx.require, ctxFS, Success] using h

theorem getD_of_getElem? (l : List Nat) (i : Nat) (h : i < l.length) :
    l[i]? = some (l.getD i 0) := by
  simp [List.getD_eq_getElem?_getD, List.getElem?_eq_getElem h]

theorem set_getD_same (arr : List Nat) (i x : Nat) (h : i < arr.length) :
    (arr.set i x).getD i 0 = x := by
  simp [List.getD_eq_getElem?_getD, List.getElem?_set, h]

theorem set_getD_other (arr : List Nat) (i j x : Nat) (hij : i ≠ j) :
    (arr.set i x).getD j 0 = arr.getD j 0 := by
  simp [List.getD_eq_getElem?_getD, List.getElem?_set, hij]

theorem Ctx.require_step_counters (c : Ctx) (b : Bool) (refs : List KeyValue) (arr : List Nat)
    (h : c.counters = some arr) (hl : 2 ≤ arr.length) :
    ((c.require b refs).1).counters =
      some (arr.set (if b then 1 else 0) (arr.getD (if b then 1 else 0) 0 + 1)) := by
  cases b
  · simpa [Ctx.require, Failure] using
      Ctx.handle_counters c Failure refs [⟨"value", Value.ofBool false⟩] arr h
        (Nat.lt_of_lt_of_le (by decide) hl)
  · simpa [Ctx.require, Success] using
      Ctx.handle_counters c Success refs [⟨"value", Value.ofBool true⟩] arr h
        (Nat.lt_of_lt_of_le (by decide) hl)

theorem Ctx.count_attached (c : Ctx) (e : Nat) (arr : List Nat) (h : c.counters = some arr)
    (he : e < arr.length) : c.count e = some ((arr.getD e 0 : Nat) : Int) := by
  unfold Ctx.count
  rw [h]
  show (arr[e]?).map (fun n => (n : Int)) = some ((arr.getD e 0 : Nat) : Int)
  rw [getD_of_getElem? arr e he]
  rfl

theorem Ctx.runRequires_counters (bs : List Bool) (c : Ctx) (arr : List Nat)
    (h : c.counters = some arr) (hl : 2 ≤ arr.length) :
    ∃ arr2 : List Nat, (c.runRequires bs).counters = some arr2 ∧
      arr2.length = arr.length ∧
      arr2.getD 0 0 = arr.getD 0 0 + bs.count false ∧
      arr2.getD 1 0 = arr.getD 1 0 + bs.count true := by
  induction bs generalizing c arr with
  | nil => exact ⟨arr, h, rfl, by simp [Ctx.runRequires], by simp [Ctx.runRequires]⟩
  | cons b bs ih =>
    have hrun : (c.runRequires (b :: bs)) = ((c.require b []).1).runRequires bs := rfl
    rw [hrun]
    cases b
    · have hstep := Ctx.require_step_counters c false [] arr h hl
      simp only [Bool.false_eq_true, if_false] at hstep
      obtain ⟨arr2, h2, hlen2, h0, h1⟩ :=
        ih ((c.require false []).1) _ hstep (by simpa using hl)
      rw [set_getD_same arr 0 _ (Nat.lt_of_lt_of_le (by decide) hl)] at h0
      rw [set_getD_other arr 0 1 _ (by decide)] at h1
      refine ⟨arr2, h2, by simpa using hlen2, ?_, ?_⟩
      · rw [List.count_cons_self]
        omega
      · rw [List.count_cons_of_ne (by decide)]
        exact h1
    · have hstep := Ctx.require_step_counters c true [] arr h hl
      simp only [if_true] at hstep
      obtain ⟨arr2, h2, hlen2, h0, h1⟩ :=
        ih ((c.require true []).1) _ hstep (by simpa using hl)
      rw [set_getD_same arr 1 _ (Nat.lt_of_lt_of_le (by decide) hl)] at h1
      rw [set_getD_other arr 1 0 _ (by decide)] at h0
      refine ⟨arr2, h2, by simpa using hlen2, ?_, ?_⟩
      · rw [List.count_cons_of_ne (by decide)]
        exact h0
      · rw [List.count_cons_self]
        omega

/-- C4: on a single Context with an attached counter array covering the Success and
Failure indices (both initially zero), any interleaved sequence of N `require(true)`
calls and M `require(false)` calls leaves `count(Success) = N` and
`count(Failure) = M`, whether or not any Handler is registered for those events
(the context's handler vector is arbitrary). -/
theorem c4_require_counter_consistency (c : Ctx) (arr : List Nat) (bs : List Bool)
    (h : c.counters = some arr) (hl : 2 ≤ arr.length)
    (h0 : arr.getD 0 0 = 0) (h1 : arr.getD 1 0 = 0) :
    (c.runRequires bs).count Success = some ((bs.count true : Nat) : Int) ∧
    (c.runRequires bs).count Failure = some ((bs.count false : Nat) : Int) := by
  obtain ⟨arr2, h2, hlen2, c0, c1⟩ := Ctx.runRequires_counters bs c arr h hl
  have hl2 : 2 ≤ arr2.length := by omega
  constructor
  · rw [Ctx.count_attached _ Success arr2 h2 (Nat.lt_of_lt_of_le (by decide) hl2)]
    simp only [Success]
    rw [c1, h1]
    simp
  · rw [Ctx.count_attached _ Failure arr2 h2 (Nat.lt_of_lt_of_le (by decide) hl2)]
    simp only [Failure]
    rw [c0, h0]
    simp

/-- C4 witness: the sequence true, false, true, true on a fresh zeroed two-counter
context (no handlers registered) ends with three successes and one failure. -/
theorem c4_require_counter_consistency_witness :
    (Ctx.runRequires ⟨[], [], some [0, 0], [], 0, []⟩ [true, false, true, true]).count Success =
      some 3 ∧
    (Ctx.runRequires ⟨[], [], some [0, 0], [], 0, []⟩ [true, false, true, true]).count Failure =
      some 1 := by
  have h := c4_require_counter_consistency ⟨[], [], some [0, 0], [], 0, []⟩ [0, 0]
    [true, false, true, true] rfl (by decide) rfl rfl
  simpa using h

/-- C9: entries added through `capture` are moved into the reserved prefix of the
log and survive every subsequent `handle` dispatch unchanged and in order, while
entries added through `info`/`operator()` are removed by the next `handle` call:
after any `handle(e, ...)` returns the log is exactly the reserved prefix
(`logs.size() == reserved_logs`), regardless of which handlers are registered. -/
theorem c9_reserved_prefix_invariant (c : Ctx) (hwf : c.wf) :
    (∀ (e : Nat) (refs ts : List KeyValue),
      (c.handle e refs ts).logs = c.logs.take c.reservedLogs ∧
      (c.handle e refs ts).logs.length = c.reservedLogs ∧
      (c.handle e refs ts).reservedLogs = c.reservedLogs) ∧
    (∀ ts : List KeyValue,
      (c.capture ts).logs.take (c.capture ts).reservedLogs = c.logs.take c.reservedLogs ++ ts ∧
      (c.capture ts).wf) ∧
    (∀ (kvs : List KeyValue) (e : Nat) (refs ts : List KeyValue),
      ((c.addLogs kvs).handle e refs ts).logs = c.logs.take c.reservedLogs) := by
  refine ⟨fun e refs ts => ⟨Ctx.handle_logs_of_wf c e refs ts hwf, ?_,
      Ctx.handle_reserved c e refs ts⟩,
    fun ts => ⟨?_, ?_⟩, fun kvs e refs ts => ?_⟩
  · rw [Ctx.handle_logs_of_wf c e refs ts hwf, List.length_take]
    exact Nat.min_eq_left hwf
  · show ((c.logs.take c.reservedLogs ++ ts) ++ c.logs.drop c.reservedLogs).take
        (c.reservedLogs + ts.length) = c.logs.take c.reservedLogs ++ ts
    have hlen : (c.logs.take c.reservedLogs ++ ts).length = c.reservedLogs + ts.length := by
      rw [List.length_append, List.length_take, Nat.min_eq_left hwf]
    exact List.take_left' hlen
  · show c.reservedLogs + ts.length ≤
      ((c.logs.take c.reservedLogs ++ ts) ++ c.logs.drop c.reservedLogs).length
    have hwf' : c.reservedLogs ≤ c.logs.length := hwf
    simp [List.length_append, List.length_take, List.length_drop]
    omega
  · have hwf2 : (c.addLogs kvs).wf := by
      show c.reservedLogs ≤ (c.logs ++ kvs).length
      have hwf' : c.reservedLogs ≤ c.logs.length := hwf
      rw [List.length_append]
      omega
    rw [Ctx.handle_logs_of_wf _ e refs ts hwf2]
    show (c.logs ++ kvs).take c.reservedLogs = c.logs.take c.reservedLogs
    exact List.take_append_of_le_length hwf

/-- C9 witness: on a context with one pinned entry (reserved prefix of size one), a
dispatch keeps exactly the pinned entry, a capture extends the prefix in order, and
info entries disappear at the next dispatch. -/
theorem c9_reserved_prefix_invariant_witness :
    (Ctx.handle ⟨[true, true], [], none, [⟨"iter", Value.ofBool true⟩], 1, []⟩ Success []
        [⟨"msg", Value.ofBool false⟩]).logs = [⟨"iter", Value.ofBool true⟩] ∧
    (Ctx.capture ⟨[true, true], [], none, [⟨"iter", Value.ofBool true⟩], 1, []⟩
        [⟨"cap2", Value.ofBool false⟩]).logs.take
      (Ctx.capture ⟨[true, true], [], none, [⟨"iter", Value.ofBool true⟩], 1, []⟩
        [⟨"cap2", Value.ofBool false⟩]).reservedLogs =
      [⟨"iter", Value.ofBool true⟩, ⟨"cap2", Value.ofBool false⟩] ∧
    (Ctx.handle (Ctx.addLogs ⟨[true, true], [], none, [⟨"iter", Value.ofBool true⟩], 1, []⟩
        [⟨"note", Value.ofBool true⟩]) Failure [] []).logs = [⟨"iter", Value.ofBool true⟩] := by
  have h := c9_reserved_prefix_invariant
    ⟨[true, true], [], none, [⟨"iter", Value.ofBool true⟩], 1, []⟩ (by exact le_refl 1)
  exact ⟨(h.1 Success [] [⟨"msg", Value.ofBool false⟩]).1,
    (h.2.1 [⟨"cap2", Value.ofBool false⟩]).1,
    h.2.2 [⟨"note", Value.ofBool true⟩] Failure [] []⟩

theorem wrong_number_string_ne_empty (r e : Nat) : wrong_number_string r e ≠ "" := by
  intro heq
  have hlen := congrArg String.length heq
  rw [wrong_number_string] at hlen
  simp only [String.length_append] at hlen
  have hpos : 0 < ("wrong number of arguments (expected ").length := by decide
  simp at hlen
  omega

/-- C1: invoking the test adapter with an ArgPack whose length differs from the
declared arity dispatches exactly one Skipped event whose message is
`wrong number of arguments (expected N, got M)` — containing the expected count N
and the actual count M — and the skip condition is then rethrown to the caller
rather than absorbed (the result is the skip error, the body never runs). -/
theorem c1_arity_mismatch_skips (arity : Nat) (body : Ctx → Ctx × Except Exc Value)
    (ct : Ctx) (args : List Value)
    (hne : args.length ≠ arity) (hreg : ct.registered Skipped = true) :
    TestAdapter.run arity body ct args =
      ((ct.handleC Skipped (skipComment (wrong_number_string arity args.length)) [] []),
        .error (.skip (wrong_number_string arity args.length))) ∧
    (TestAdapter.run arity body ct args).1.emitted =
      ct.emitted ++ [⟨Skipped, ct.scopes,
        finalize (ct.logs ++
          [⟨"__comment", Value.ofStrView (wrong_number_string arity args.length)⟩])⟩] ∧
    (∃ pre mid post, wrong_number_string arity args.length =
      pre ++ toString arity ++ mid ++ toString args.length ++ post) := by
  refine ⟨by simp [TestAdapter.run, hne], ?_,
    ⟨"wrong number of arguments (expected ", ", got ", ")", rfl⟩⟩
  have hrun : (TestAdapter.run arity body ct args).1 =
      ct.handleC Skipped (skipComment (wrong_number_string arity args.length)) [] [] := by
    simp [TestAdapter.run, hne]
  rw [hrun]
  unfold Ctx.handleC
  rw [Ctx.handle_emitted_of_registered ct Skipped [] _ hreg]
  simp [skipComment, Comment.entries, wrong_number_string_ne_empty, finalize]

/-- C1 witness: a two-parameter adapter invoked with an empty ArgPack, on a context
whose handler vector registers a Skipped handler, emits exactly one Skipped event
carrying the message `wrong number of arguments (expected 2, got 0)` and rethrows
the skip. -/
theorem c1_arity_mismatch_skips_witness :
    (TestAdapter.run 2 (fun c => (c, .ok Value.empty))
        ⟨[false, false, false, false, true], [], none, [], 0, []⟩ []).1.emitted =
      [⟨Skipped, [], [⟨"__comment", "wrong number of arguments (expected 2, got 0)"⟩]⟩] ∧
    (TestAdapter.run 2 (fun c => (c, .ok Value.empty))
        ⟨[false, false, false, false, true], [], none, [], 0, []⟩ []).2 =
      .error (.skip ("wrong number of arguments (expected 2, got 0)")) := by
  have h := c1_arity_mismatch_skips 2 (fun c => (c, .ok Value.empty))
    ⟨[false, false, false, false, true], [], none, [], 0, []⟩ [] (by decide) (by decide)
  constructor
  · rw [h.2.1]
    rfl
  · rw [h.1]
    rfl

/-- C2: when a test body invoked through the adapter throws, a ClientError is
rethrown unmodified with no event dispatched and no log entry added by the adapter;
any other non-Skip exception causes (for a `std::exception`) its message to enter
the dispatched entries under the key `reason`, exactly one Exception event to be
dispatched, and the exception to be rethrown; a non-`std::exception` foreign
exception also dispatches exactly one Exception event (with no reason entry) and is
rethrown. -/
theorem c2_exception_taxonomy (arity : Nat) (body : Ctx → Ctx × Except Exc Value)
    (ct ct1 : Ctx) (args : List Value) (hlen : args.length = arity) :
    (∀ m : String, body ct = (ct1, .error (.clientError m)) →
      TestAdapter.run arity body ct args = (ct1, .error (.clientError m))) ∧
    (∀ m : String, body ct = (ct1, .error (.stdError m)) → ct1.registered Exception = true →
      (TestAdapter.run arity body ct args).2 = .error (.stdError m) ∧
      (TestAdapter.run arity body ct args).1.emitted =
        ct1.emitted ++ [⟨Exception, ct1.scopes,
          finalize (ct1.logs ++ [⟨"reason", Value.ofStrView m⟩])⟩]) ∧
    (body ct = (ct1, .error .unknown) → ct1.registered Exception = true →
      (TestAdapter.run arity body ct args).2 = .error .unknown ∧
      (TestAdapter.run arity body ct args).1.emitted =
        ct1.emitted ++ [⟨Exception, ct1.scopes, finalize ct1.logs⟩]) := by
  refine ⟨fun m hb => ?_, fun m hb hreg => ?_, fun hb hreg => ?_⟩
  · simp [TestAdapter.run, hlen, hb]
  · have hrun : TestAdapter.run arity body ct args =
        (((ct1.addLogs [⟨"reason", Value.ofStrView m⟩]).handleC Exception ⟨"", "", 0⟩ [] []),
          .error (.stdError m)) := by
      simp [TestAdapter.run, hlen, hb]
    rw [hrun]
    refine ⟨rfl, ?_⟩
    show ((ct1.addLogs [⟨"reason", Value.ofStrView m⟩]).handle Exception []
      (Comment.entries ⟨"", "", 0⟩ ++ [])).emitted = _
    have hreg2 : (ct1.addLogs [⟨"reason", Value.ofStrView m⟩]).registered Exception = true := hreg
    rw [Ctx.handle_emitted_of_registered _ Exception [] _ hreg2]
    simp [Ctx.addLogs, Comment.entries, finalize]
  · have hrun : TestAdapter.run arity body ct args =
        ((ct1.handleC Exception ⟨"", "", 0⟩ [] []), .error .unknown) := by
      simp [TestAdapter.run, hlen, hb]
    rw [hrun]
    refine ⟨rfl, ?_⟩
    show (ct1.handle Exception [] (Comment.entries ⟨"", "", 0⟩ ++ [])).emitted = _
    rw [Ctx.handle_emitted_of_registered _ Exception [] _ hreg]
    simp [Comment.entries, finalize]

/-- C2 witness: on a context with an Exception handler registered, a body throwing a
ClientError passes through the adapter untouched; a body throwing a
`std::runtime_error` yields one Exception event whose entries carry the message
under `reason` and the error is rethrown. -/
theorem c2_exception_taxonomy_witness :
    TestAdapter.run 0 (fun c => (c, .error (.clientError ("backend broke"))))
        ⟨[false, false, true], [], none, [], 0, []⟩ [] =
      (⟨[false, false, true], [], none, [], 0, []⟩, .error (.clientError ("backend broke"))) ∧
    (TestAdapter.run 0 (fun c => (c, .error (.stdError ("uh oh"))))
        ⟨[false, false, true], [], none, [], 0, []⟩ []).2 = .error (.stdError ("uh oh")) ∧
    (TestAdapter.run 0 (fun c => (c, .error (.stdError ("uh oh"))))
        ⟨[false, false, true], [], none, [], 0, []⟩ []).1.emitted =
      [⟨Exception, [], [⟨"reason", "uh oh"⟩]⟩] := by
  have ha := (c2_exception_taxonomy 0 (fun c => (c, .error (.clientError ("backend broke"))))
    ⟨[false, false, true], [], none, [], 0, []⟩ ⟨[false, false, true], [], none, [], 0, []⟩
    [] rfl).1 ("backend broke") rfl
  have hb := (c2_exception_taxonomy 0 (fun c => (c, .error (.stdError ("uh oh"))))
    ⟨[false, false, true], [], none, [], 0, []⟩ ⟨[false, false, true], [], none, [], 0, []⟩
    [] rfl).2.1 ("uh oh") rfl (by decide)
  exact ⟨ha, hb.1, by rw [hb.2]; rfl⟩

theorem find_test_first (s : Suite) (t1 : TestCase) (rest : Suite) (name : String)
    (hs : ∀ c ∈ s, c.name ≠ name) (h1 : t1.name = name) :
    find_test (s ++ t1 :: rest) name = some s.length := by
  induction s with
  | nil => simp [find_test, h1]
  | cons c cs ih =>
    have hc : c.name ≠ name := hs c (by simp)
    have := ih (fun d hd => hs d (by simp [hd]))
    simp [find_test, hc, this]

/-- C8 counterexample: `set_value` — the remove-all-by-name operation — reports the
same value (`true`) whether it removed two entries named `dup` or one, so its
report is not the count of entries removed (2), contrary to the claim. -/
theorem c8_removal_report_counterexample :
    (set_value [⟨"dup", "", .value Value.empty⟩, ⟨"dup", "", .value Value.empty⟩]
      ("dup") Value.empty ("")).1 =
    (set_value [⟨"dup", "", .value Value.empty⟩] ("dup") Value.empty ("")).1 ∧
    countNamed [⟨"dup", "", .value Value.empty⟩, ⟨"dup", "", .value Value.empty⟩] ("dup") = 2 ∧
    countNamed [⟨"dup", "", .value Value.empty⟩] ("dup") = 1 := by
  exact ⟨rfl, rfl, rfl⟩

/-- C8 (amended): registering two test cases under the same name `dup` is legal; a
subsequent find returns the index of the first-registered one (registration order
defines first-match); and the remove-all-by-name operation (`set_value`) removes
both entries — but it reports only whether any entry was removed (the boolean
`true`), not the count 2, before appending its own replacement entry. -/
theorem c8_duplicate_names_amended (s : Suite) (t1 t2 : TestCase) (n : String)
    (v : Value) (com : String)
    (h1 : t1.name = n) (h2 : t2.name = n) (hs : ∀ c ∈ s, c.name ≠ n) :
    find_test (add_test (add_test s t1) t2) n = some s.length ∧
    set_value (add_test (add_test s t1) t2) n v com = (true, s ++ [⟨n, com, .value v⟩]) ∧
    countNamed (add_test (add_test s t1) t2) n = 2 := by
  have hsplit : add_test (add_test s t1) t2 = s ++ t1 :: [t2] := by
    simp [add_test]
  refine ⟨by rw [hsplit]; exact find_test_first s t1 [t2] n hs h1, ?_, ?_⟩
  · rw [hsplit]
    unfold set_value
    have hkeep : List.filter (fun c => c.name ≠ n) (s ++ t1 :: [t2]) = s := by
      rw [List.filter_append]
      have hfs : List.filter (fun c => c.name ≠ n) s = s := by
        rw [List.filter_eq_self]
        intro a ha
        simpa using hs a ha
      rw [hfs]
      simp [h1, h2]
    rw [hkeep]
    have hlen : s.length ≠ (s ++ t1 :: [t2]).length := by
      simp [List.length_append]
    simp [hlen]
  · rw [hsplit]
    unfold countNamed
    rw [List.filter_append]
    have hfs : List.filter (fun c => c.name = n) s = [] := by
      rw [List.filter_eq_nil_iff]
      intro a ha
      simpa using hs a ha
    rw [hfs]
    simp [h1, h2]

/-- C8 witness: two entries named `dup` registered into an empty suite — find
returns index 0 (the first-registered), `set_value` removes both and reports
`true`, and the suite indeed held two entries of that name. -/
theorem c8_duplicate_names_amended_witness :
    find_test (add_test (add_test [] ⟨"dup", "", .value Value.empty⟩)
      ⟨"dup", "", .value Value.empty⟩) ("dup") = some 0 ∧
    set_value (add_test (add_test [] ⟨"dup", "", .value Value.empty⟩)
        ⟨"dup", "", .value Value.empty⟩) ("dup") (Value.ofInteger 7) ("c") =
      (true, [⟨"dup", "c", .value (Value.ofInteger 7)⟩]) ∧
    countNamed (add_test (add_test [] ⟨"dup", "", .value Value.empty⟩)
      ⟨"dup", "", .value Value.empty⟩) ("dup") = 2 := by
  have h := c8_duplicate_names_amended [] ⟨"dup", "", .value Value.empty⟩
    ⟨"dup", "", .value Value.empty⟩ ("dup") (Value.ofInteger 7) ("c") rfl rfl
    (fun c hc => by cases hc)
  exact ⟨h.1, h.2.1, h.2.2⟩

end Lilwil
